import Mathlib

/-!
Verification of the timezone alignment engine of world-time-agent-next.

Instants are modelled as epoch milliseconds (`Int`), exactly the values JS
`Date.prototype.getTime` exposes.  A time zone is modelled as its resolver
data: the UTC offset (in minutes east) it assigns to a UTC instant, and the
UTC offset it assigns to a local wall-clock reading (the two coincide for
fixed-offset zones; they differ only around DST transitions).

The runtime (browser/system) zone matters because JS `Date` accessors such as
`getHours`, `setHours`, `getTimezoneOffset` and the `new Date(string)` parser
work in the runtime zone, and `date-fns-tz`'s `toZonedTime` produces a Date
shifted so that runtime-zone accessors show the target zone's wall clock.
All such operations therefore take an explicit `sysOff` parameter: the
runtime zone's UTC offset in minutes (taken constant over the short windows
involved, which is exact whenever no runtime-zone DST transition falls in
the window).  Calendar dates are tracked as epoch day numbers; two instants
render the same `yyyy-MM-dd` string iff they have the same day number, and a
`h:mm a` string is captured by the `TimeLabel` triple (12-hour figure,
minute, AM/PM flag).
-/

namespace WorldTime

/-- Milliseconds per minute. -/
def minuteMs : Int := 60000

/-- Milliseconds per hour. -/
def hourMs : Int := 3600000

/-- Milliseconds per day. -/
def dayMs : Int := 86400000

/-- A time zone, as seen through the external resolver (date-fns-tz / Intl):
`offsetAt u` is the zone's UTC offset in minutes east at the UTC instant `u`
(epoch ms); `offsetAtWall w` is the offset the resolver assigns when it has
to interpret the local wall-clock reading `w` (ms on the local clock). -/
structure Timezone where
  offsetAt : Int → Int
  offsetAtWall : Int → Int

/-- A fixed-offset zone (`o` minutes east of UTC). -/
def constTz (o : Int) : Timezone := ⟨fun _ => o, fun _ => o⟩

/-- Runtime-zone wall-clock reading of the instant `e` (JS local accessors). -/
def wallSys (sysOff : Int) (e : Int) : Int := e + sysOff * minuteMs

/-- The instant whose runtime-zone wall clock reads `w` (JS local constructors
and the local-time `new Date(string)` parser). -/
def ofWallSys (sysOff : Int) (w : Int) : Int := w - sysOff * minuteMs

/-- Epoch day number of a wall-clock (or UTC) reading: two readings format the
same `yyyy-MM-dd` iff they have the same day number. -/
def dayNumber (w : Int) : Int := w / dayMs

/-- Minute of day (0..1439) of a wall-clock reading. -/
def minuteOfDay (w : Int) : Int := (w % dayMs) / minuteMs

/-- JS `Date.prototype.getHours` (runtime zone). -/
def getHours (sysOff : Int) (e : Int) : Int := minuteOfDay (wallSys sysOff e) / 60

/-- JS `Date.prototype.getMinutes` (runtime zone). -/
def getMinutes (sysOff : Int) (e : Int) : Int := minuteOfDay (wallSys sysOff e) % 60

/-- JS `d.setHours(0, 0, 0, 0)`: truncate to runtime-zone midnight. -/
def setMidnight (sysOff : Int) (e : Int) : Int :=
  ofWallSys sysOff (dayNumber (wallSys sysOff e) * dayMs)

/-- JS `d.setHours(h, m, 0, 0)` in the runtime zone. -/
def setHoursMinutes (sysOff : Int) (e : Int) (h m : Int) : Int :=
  ofWallSys sysOff (dayNumber (wallSys sysOff e) * dayMs + h * hourMs + m * minuteMs)

/-- JS `Date.prototype.getTimezoneOffset`: minutes west of UTC of the RUNTIME
zone, whatever the Date holds. -/
def jsGetTimezoneOffset (sysOff : Int) (_e : Int) : Int := -sysOff

/-- Wall-clock reading of the instant `u` in zone `tz` (what `formatInTimeZone`
renders). -/
def zoneWall (tz : Timezone) (u : Int) : Int := u + tz.offsetAt u * minuteMs

/-- date-fns-tz `toZonedTime(u, tz)`: a Date whose runtime-zone accessors show
`tz`'s wall clock, i.e. the instant `u + (offsetAt u - sysOff)` minutes. -/
def toZonedTime (sysOff : Int) (tz : Timezone) (u : Int) : Int :=
  ofWallSys sysOff (zoneWall tz u)

/-- date-fns-tz `fromZonedTime(d, tz)`: read `d`'s runtime-zone wall clock and
interpret it as a wall clock of `tz`. -/
def fromZonedTime (sysOff : Int) (tz : Timezone) (d : Int) : Int :=
  wallSys sysOff d - tz.offsetAtWall (wallSys sysOff d) * minuteMs

/-- `formatInTimeZone(e, tz, 'yyyy-MM-dd')`, as an epoch day number. -/
def formatYmd (tz : Timezone) (e : Int) : Int := dayNumber (zoneWall tz e)

/-- The content of a `h:mm a` string: 12-hour figure, minute, AM/PM flag. -/
structure TimeLabel where
  h12 : Int
  mm : Int
  pm : Bool
deriving DecidableEq, Repr

/-- Render a wall-clock reading as a `h:mm a` label. -/
def labelOfWall (w : Int) : TimeLabel :=
  let md := minuteOfDay w
  let h24 := md / 60
  { h12 := if h24 % 12 == 0 then 12 else h24 % 12
    mm := md % 60
    pm := decide (12 ≤ h24) }

/-- `src/utils/timeUtils.ts` `formatTime(date, timeZone)` =
`formatInTimeZone(date, timeZone, 'h:mm a')`. -/
def formatTime (date : Int) (timeZone : Timezone) : TimeLabel :=
  labelOfWall (zoneWall timeZone date)

/-- JS day-of-week (0 = Sunday) of the instant `e` in the runtime zone;
epoch day 0 (1970-01-01) was a Thursday. -/
def jsDay (sysOff : Int) (e : Int) : Int := (dayNumber (wallSys sysOff e) + 4) % 7

/-- date-fns `isWeekend`, which reads the Date in the runtime zone. -/
def isWeekend (sysOff : Int) (e : Int) : Bool :=
  jsDay sysOff e == 0 || jsDay sysOff e == 6

/-- `TimeSlot` of `src/types.ts`: `date` and `utc` are Date values (epoch ms),
`time` is the `h:mm a` label. -/
structure TimeSlot where
  hour : Int
  minute : Int
  time : TimeLabel
  date : Int
  utc : Int
  isCurrent : Bool
  isSelected : Bool
  isWeekend : Bool
  isMidnight : Bool
deriving DecidableEq, Repr

/-- `generateAlignedTimeSlots` of `src/utils/timeUtils.ts` (lines 41-93): the
slot aligner actually imported by the app.  `baseDate` is the anchor Date; the
function truncates it to runtime-zone midnight, reads that wall clock as home
local midnight (`fromZonedTime`), and always emits 26 hourly slots. -/
def generateAlignedTimeSlots (sysOff : Int) (baseDate : Int)
    (homeTimezone targetTimezone : Timezone) (selectedColumnIndex : Option Nat) :
    List TimeSlot :=
  let homeMidnight := setMidnight sysOff baseDate
  let utcBase := fromZonedTime sysOff homeTimezone homeMidnight
  -- "Always generate 26 slots (24 hours + 2 extra hours for next day)"
  let increments := 26
  (List.range increments).map fun (i : Nat) =>
    let minutesToAdd : Int := (i : Int) * 60
    let utcSlot := utcBase + minutesToAdd * 60 * 1000
    let localDate := toZonedTime sysOff targetTimezone utcSlot
    let isWeekendDay := isWeekend sysOff localDate
    let isSelected := match selectedColumnIndex with
      | some s => i == s
      | none => false
    let isMidnight :=
      if i == 0 then true
      else
        let prevMinutesToAdd : Int := ((i : Int) - 1) * 60
        let prevUtcSlot := utcBase + prevMinutesToAdd * 60 * 1000
        let prevLocalDate := toZonedTime sysOff targetTimezone prevUtcSlot
        formatYmd targetTimezone prevLocalDate != formatYmd targetTimezone localDate
    { hour := getHours sysOff localDate
      minute := getMinutes sysOff localDate
      time := formatTime localDate targetTimezone
      date := localDate
      utc := utcSlot
      isCurrent := false
      isSelected := isSelected
      isWeekend := isWeekendDay
      isMidnight := isMidnight }

/-- `getCurrentTimezoneOffset` of `src/utils/time/calculations.ts` (lines
199-204): both `utc` and `local` are `toZonedTime(now, timeZone)`, so the
difference is identically zero. -/
def getCurrentTimezoneOffset (sysOff : Int) (now : Int) (timeZone : Timezone) : Int :=
  let utc := toZonedTime sysOff timeZone now
  let localT := toZonedTime sysOff timeZone now
  (localT - utc) / (1000 * 60 * 60)

/-- date-fns `isToday` (runtime-zone calendar date equals today's). -/
def isToday (sysOff : Int) (now : Int) (e : Int) : Bool :=
  dayNumber (wallSys sysOff e) == dayNumber (wallSys sysOff now)

/-- `generateAlignedTimeSlots` of `src/utils/time/calculations.ts` (lines
74-130): the variant that chooses a 30-minute cadence (52 slots) when the
target offset has a 30-minute component — but computes that offset with
`getCurrentTimezoneOffset`, which is identically zero. -/
def generateAlignedTimeSlotsCalc (sysOff : Int) (now : Int) (baseDate : Int)
    (homeTimezone targetTimezone : Timezone) (selectedUtcDate : Option Int) :
    List TimeSlot :=
  let homeMidnight := setMidnight sysOff baseDate
  let utcBase := fromZonedTime sysOff homeTimezone homeMidnight
  let offsetMinutes := getCurrentTimezoneOffset sysOff now targetTimezone * 60
  let hasHalfHour := (offsetMinutes.tmod 60).natAbs == 30
  -- "CHANGED: increments from 24 to 26 (whole hour), 48 to 52 (half hour)"
  let increments := if hasHalfHour then 52 else 26
  (List.range increments).map fun (i : Nat) =>
    let minutesToAdd : Int := if hasHalfHour then (i : Int) * 30 else (i : Int) * 60
    let utcSlot := utcBase + minutesToAdd * 60 * 1000
    let localDate := toZonedTime sysOff targetTimezone utcSlot
    let isCurrent := isToday sysOff now localDate
      && getHours sysOff localDate == getHours sysOff now
      && getMinutes sysOff localDate == getMinutes sysOff now
    let isWeekendDay := isWeekend sysOff localDate
    let isSelected := match selectedUtcDate with
      | some sel => utcSlot == sel
      | none => false
    let isMidnight :=
      if i == 0 then true
      else
        let prevMinutesToAdd : Int :=
          if hasHalfHour then ((i : Int) - 1) * 30 else ((i : Int) - 1) * 60
        let prevUtcSlot := utcBase + prevMinutesToAdd * 60 * 1000
        let prevLocalDate := toZonedTime sysOff targetTimezone prevUtcSlot
        formatYmd targetTimezone prevLocalDate != formatYmd targetTimezone localDate
    { hour := getHours sysOff localDate
      minute := getMinutes sysOff localDate
      time := formatTime localDate targetTimezone
      date := localDate
      utc := utcSlot
      isCurrent := isCurrent
      isSelected := isSelected
      isWeekend := isWeekendDay
      isMidnight := isMidnight }

/-! ### Location registry (`src/hooks/useTimeZoneData.ts`, `src/app/page.tsx`) -/

/-- The fields of `TimeZone` (`src/types.ts`) that the registry operations
read; `country`, `offset` and `flag` are carried along untouched and are
omitted here. -/
structure TimeZoneInfo where
  name : String
  city : String
deriving DecidableEq, Repr

/-- The fields of `Location` (`src/types.ts`) that the registry operations
read; `currentTime` and `timeSlots` are carried along untouched by
`removeLocation` / reorder and are omitted here. -/
structure Location where
  id : String
  timezone : TimeZoneInfo
deriving DecidableEq, Repr

/-- `removeLocation` of `src/hooks/useTimeZoneData.ts` (lines 294-317).
In the `some 0` branch the source re-labels `newLocations[0]`; when every
element carried the removed id (impossible while ids are unique) the filter
is empty and the JS would fabricate a field-less `{id:'local'}` object —
that unreachable corner is rendered as `[]` here. -/
def removeLocation (id : String) (prev : List Location) : List Location :=
  if prev.length ≤ 1 then prev
  else
    match prev.findIdx? (fun loc => loc.id == id) with
    | none => prev
    | some 0 =>
      match prev.filter (fun loc => loc.id != id) with
      | [] => []
      | newHome :: rest => { newHome with id := "local" } :: rest
    | some _ => prev.filter (fun loc => loc.id != id)

/-- `normalizeLocationIds` of `src/app/page.tsx` (lines 148-153): index 0 gets
the reserved home id, every other Location gets `name:city`. -/
def normalizeLocationIds (locations : List Location) : List Location :=
  locations.mapIdx fun idx loc =>
    { loc with id := if idx == 0 then "local" else loc.timezone.name ++ ":" ++ loc.timezone.city }

/-- The two `splice` calls of `handleReorderLocations` (`src/app/page.tsx`):
remove the element at `oldIndex`, re-insert it at `newIndex`. -/
def spliceMove (locations : List Location) (oldIndex newIndex : Nat) : List Location :=
  match locations[oldIndex]? with
  | none => locations
  | some moved => (locations.eraseIdx oldIndex).insertIdx newIndex moved

/-- `handleReorderLocations` of `src/app/page.tsx` on the mutating path: both
drag ids are ids of list members (dnd-kit draws them from the list), so both
`findIndex` calls succeed; otherwise the list is left unchanged. -/
def handleReorderLocations (locations : List Location) (activeId overId : String) :
    List Location :=
  if activeId == overId then locations
  else
    match locations.findIdx? (fun loc => loc.id == activeId),
        locations.findIdx? (fun loc => loc.id == overId) with
    | some oldIndex, some newIndex =>
      normalizeLocationIds (spliceMove locations oldIndex newIndex)
    | _, _ => locations

/-! ### Selection synchronisation handlers (`src/app/page.tsx`) -/

/-- `getHomeMidnightDate` of `src/app/page.tsx` (lines 52-60): note that the
`offsetMinutes` it subtracts comes from JS `getTimezoneOffset`, i.e. the
RUNTIME zone's offset, not `homeTimezone`'s. -/
def getHomeMidnightDate (sysOff : Int) (homeTimezone : Timezone) (date : Int) : Int :=
  let zoned := toZonedTime sysOff homeTimezone date
  let utcMidnight := dayNumber (wallSys sysOff zoned) * dayMs
  let offsetMinutes := -(jsGetTimezoneOffset sysOff (toZonedTime sysOff homeTimezone utcMidnight))
  utcMidnight - offsetMinutes * minuteMs

/-- `handleTimeSlotClick` of `src/app/page.tsx` (lines 176-185).  Returns
(new `selectedUtcDate` = new `selectedTime`, new `anchorDate`); the anchor is
`new Date(formatInTimeZone(slotUtc, homeTimezone, 'yyyy-MM-dd') + 'T00:00:00')`,
parsed by JS in the runtime zone. -/
def handleTimeSlotClick (sysOff : Int) (homeTimezone : Timezone) (slotUtc : Int) :
    Int × Int :=
  let dateStr := formatYmd homeTimezone slotUtc
  let homeMidnight := ofWallSys sysOff (dateStr * dayMs)
  (slotUtc, homeMidnight)

/-- `handleDateChange` of `src/app/page.tsx` (lines 187-209).  Returns
(new `selectedUtcDate`, new `anchorDate`); `newHomeTime.setHours(...)` runs in
the runtime zone. -/
def handleDateChange (sysOff : Int) (homeTimezone : Timezone)
    (selectedUtcDate : Option Int) (date : Int) : Option Int × Int :=
  let newAnchorDate := getHomeMidnightDate sysOff homeTimezone date
  match selectedUtcDate with
  | some sel =>
    let selectedHomeTime := toZonedTime sysOff homeTimezone sel
    let selectedHour := getHours sysOff selectedHomeTime
    let selectedMinute := getMinutes sysOff selectedHomeTime
    let newHomeTime := setHoursMinutes sysOff newAnchorDate selectedHour selectedMinute
    (some newHomeTime, newAnchorDate)
  | none => (none, newAnchorDate)

/-! ### Abbreviation resolver fallback (`src/utils/timezoneAbbr.ts`) -/

/-- `padStart(2, '0')` on a decimal rendering. -/
def padTwo (n : Nat) : String := if n < 10 then "0" ++ toString n else toString n

/-- `formatGMTOffset` of `src/utils/timezoneAbbr.ts` (lines 111-121):
`Math.abs(Math.floor(m / 60))` is floor division (`Int.ediv`), JS `%` is
truncating remainder (`Int.tmod`). -/
def formatGMTOffset (offsetMinutes : Int) : String :=
  let hours := (offsetMinutes / 60).natAbs
  let minutes := (offsetMinutes.tmod 60).natAbs
  let sign := if 0 ≤ offsetMinutes then "+" else "-"
  if minutes == 0 then "GMT" ++ sign ++ toString hours
  else "GMT" ++ sign ++ toString hours ++ ":" ++ padTwo minutes

/-- `getTimezoneOffset` of `src/utils/timezoneAbbr.ts` (lines 98-106): both
`toLocaleString` round-trips parse a wall-clock reading in the runtime zone,
so the runtime offset cancels and the result is the zone's offset in
minutes. -/
def tzOffsetViaLocale (sysOff : Int) (tz : Timezone) (date : Int) : Int :=
  let utcDate := ofWallSys sysOff date
  let tzDate := ofWallSys sysOff (zoneWall tz date)
  (tzDate - utcDate) / minuteMs

/-- The numeric fallback of `getTimezoneAbbrForDate`
(`src/utils/timezoneAbbr.ts` lines 164-167): compute the offset, format it. -/
def abbrNumericFallback (sysOff : Int) (tz : Timezone) (date : Int) : String :=
  formatGMTOffset (tzOffsetViaLocale sysOff tz date)

/-! ### Statements taken from the spec's words, for comparison with the code -/

/-- Modelled from the spec: "the local calendar date at index i ... in that
Location's own zone" — the calendar date a zone assigns to a UTC instant. -/
def localCalendarDay (tz : Timezone) (u : Int) : Int :=
  dayNumber (u + tz.offsetAt u * minuteMs)

/-- Modelled from the spec: "the UTC instant of home-zone local midnight on
the anchor date" for the calendar day `anchorDay` (epoch day number). -/
def specHomeMidnightUtc (home : Timezone) (anchorDay : Int) : Int :=
  anchorDay * dayMs - home.offsetAtWall (anchorDay * dayMs) * minuteMs

/-- The calendar day an anchor `Date` denotes: its date fields as the runtime
zone shows them (this is what the code's `setHours(0,0,0,0)` truncation and
date parsing preserve). -/
def anchorCalendarDay (sysOff : Int) (e : Int) : Int := dayNumber (wallSys sysOff e)

/-- Modelled from the spec: a zone's local hour of a UTC instant. -/
def specZoneHour (tz : Timezone) (u : Int) : Int :=
  minuteOfDay (zoneWall tz u) / 60

/-- Modelled from the spec: the day-boundary flags a slot sequence of UTC
instants should carry — true at index 0 and exactly where the zone's local
calendar date differs from the previous index's. -/
def specBoundaryFlagsAux (tz : Timezone) (prev : Int) : List Int → List Bool
  | [] => []
  | u :: rest =>
    (localCalendarDay tz u != localCalendarDay tz prev) :: specBoundaryFlagsAux tz u rest

/-- See `specBoundaryFlagsAux`. -/
def specBoundaryFlags (tz : Timezone) : List Int → List Bool
  | [] => []
  | u :: rest => true :: specBoundaryFlagsAux tz u rest

/-! ### Concrete zones and instants used in scenarios -/

/-- America/New_York in January: UTC-5, no DST transition nearby. -/
def nyWinter : Timezone := constTz (-300)

/-- Asia/Tokyo: UTC+9, no DST. -/
def tokyo : Timezone := constTz 540

/-- Asia/Kolkata: UTC+5:30, no DST. -/
def kolkata : Timezone := constTz 330

/-- Epoch day number of 2024-01-15 (a Monday). -/
def day20240115 : Int := 19737

/-- 2024-01-15T00:00:00Z in epoch ms. -/
def jan15utc : Int := day20240115 * dayMs

/-- The anchor `Date` for 2024-01-15 as held by a run whose runtime zone is
America/New_York (UTC-5): its runtime-zone fields read 2024-01-15 00:00. -/
def anchorNY : Int := ofWallSys (-300) jan15utc

/-- A three-Location registry in canonical form (home first, unique ids). -/
def locA : Location := ⟨"local", ⟨"America/New_York", "New York"⟩⟩

/-- See `locA`. -/
def locB : Location := ⟨"Asia/Tokyo:Tokyo", ⟨"Asia/Tokyo", "Tokyo"⟩⟩

/-- See `locA`. -/
def locC : Location := ⟨"Europe/London:London", ⟨"Europe/London", "London"⟩⟩

/-- See `locA`. -/
def registryABC : List Location := [locA, locB, locC]

/-! ### Helper lemmas -/

theorem wallSys_ofWallSys (sysOff w : Int) : wallSys sysOff (ofWallSys sysOff w) = w := by
  unfold wallSys ofWallSys
  ring

theorem head?_map_range {α : Type} (n : Nat) (hn : 0 < n) (f : Nat → α) :
    ((List.range n).map f).head? = some (f 0) := by
  cases n with
  | zero => omega
  | succ m => rw [List.range_succ_eq_map]; rfl

theorem normalizeLocationIds_head (a : Location) (t : List Location) :
    ((normalizeLocationIds (a :: t)).map Location.id).head? = some "local" := by
  unfold normalizeLocationIds
  rw [List.mapIdx_cons]
  rfl

theorem filter_ne_of_nodup_ids (x : Location) (t : List Location)
    (hn : ((x :: t).map Location.id).Nodup) :
    t.filter (fun loc => loc.id != x.id) = t := by
  rw [List.filter_eq_self]
  intro b hb
  have hx : x.id ∉ t.map Location.id := (List.nodup_cons.mp (by simpa using hn)).1
  have : b.id ≠ x.id := by
    intro he
    exact hx (he ▸ List.mem_map_of_mem Location.id hb)
  simpa using this

theorem removeLocation_length (id : String) (l : List Location)
    (hn : (l.map Location.id).Nodup) (h1 : 1 ≤ l.length) :
    1 ≤ (removeLocation id l).length := by
  by_cases hle : l.length ≤ 1
  · unfold removeLocation
    simpa [hle] using h1
  · have hne : l.filter (fun loc => loc.id != id) ≠ [] := by
      intro hnil
      rw [List.filter_eq_nil_iff] at hnil
      match l, hle with
      | x :: y :: t, _ =>
        have hx : x.id = id := by simpa using hnil x (by simp)
        have hy : y.id = id := by simpa using hnil y (by simp)
        have hnd : x.id ∉ ((y :: t).map Location.id) :=
          (List.nodup_cons.mp (by simpa using hn)).1
        exact hnd (by simp [hx, hy])
    obtain ⟨h, rest, hcons⟩ := List.exists_cons_of_ne_nil hne
    have hfl : 1 ≤ (l.filter (fun loc => loc.id != id)).length := by
      rw [hcons]
      simp
    unfold removeLocation
    simp only [hle, if_false]
    cases hf : l.findIdx? (fun loc => loc.id == id) with
    | none => simpa using h1
    | some k =>
      cases k with
      | zero =>
        rw [hcons]
        simp
      | succ j => simpa using hfl

/-- C5: the registry never becomes empty — `removeLocation` is a no-op when
exactly one Location remains, and on any well-formed (unique-id) nonempty
registry its result is again nonempty. -/
theorem C5_registry_never_empty (id : String) (l : List Location)
    (hn : (l.map Location.id).Nodup) (h1 : 1 ≤ l.length) :
    1 ≤ (removeLocation id l).length ∧ (l.length = 1 → removeLocation id l = l) := by
  refine ⟨removeLocation_length id l hn h1, fun h1eq => ?_⟩
  unfold removeLocation
  simp [h1eq]

/-- C5 witness: a one-Location registry is left untouched. -/
theorem C5_witness :
    (([locA].map Location.id).Nodup ∧ 1 ≤ [locA].length) ∧
      1 ≤ (removeLocation "local" [locA]).length ∧
      ([locA].length = 1 → removeLocation "local" [locA] = [locA]) :=
  ⟨⟨by decide, by decide⟩, C5_registry_never_empty "local" [locA] (by decide) (by decide)⟩

/-- C6: after removing the Location at index 0 of a registry with more than
one Location, and after any drag-reorder permutation, the Location at index 0
carries the reserved home id `"local"`. -/
theorem C6_home_id_at_index_zero (l : List Location)
    (hn : (l.map Location.id).Nodup) (h2 : 2 ≤ l.length) :
    (∀ a, l.head?.map Location.id = some a →
        ((removeLocation a l).map Location.id).head? = some "local") ∧
    (∀ i j : Nat, i < l.length → j < l.length →
        ((normalizeLocationIds (spliceMove l i j)).map Location.id).head? = some "local") := by
  constructor
  · intro a ha
    match l, h2, hn, ha with
    | x :: t, h2, hn, ha =>
      have hax : a = x.id := by
        simpa using ha.symm
      subst hax
      unfold removeLocation
      have hle : ¬ (x :: t).length ≤ 1 := by
        simp only [List.length_cons] at h2 ⊢
        omega
      simp only [hle, if_false]
      have hfi : (x :: t).findIdx? (fun loc => loc.id == x.id) = some 0 := by
        rw [List.findIdx?_cons]
        simp
      rw [hfi]
      have hfil : (x :: t).filter (fun loc => loc.id != x.id) = t := by
        rw [List.filter_cons]
        simp [filter_ne_of_nodup_ids x t hn]
      rw [hfil]
      match t, h2 with
      | y :: t2, _ => rfl
  · intro i j hi hj
    have hlen : (spliceMove l i j).length = l.length := by
      unfold spliceMove
      rw [List.getElem?_eq_getElem hi]
      simp only
      have he : (l.eraseIdx i).length = l.length - 1 := by
        rw [List.length_eraseIdx]
        simp [hi]
      rw [List.length_insertIdx _ _ (by omega)]
      omega
    match hs : spliceMove l i j, hlen with
    | [], hlen => simp at hlen; omega
    | a :: t, _ => exact normalizeLocationIds_head a t

/-- C6 witness: removing the home of a 3-registry, and moving index 2 to
index 0, both leave `"local"` at index 0. -/
theorem C6_witness :
    ((registryABC.map Location.id).Nodup ∧ 2 ≤ registryABC.length) ∧
      ((removeLocation "local" registryABC).map Location.id).head? = some "local" ∧
      ((normalizeLocationIds (spliceMove registryABC 2 0)).map Location.id).head? =
        some "local" :=
  ⟨⟨by decide, by decide⟩,
    (C6_home_id_at_index_zero registryABC (by decide) (by decide)).1 "local" (by decide),
    (C6_home_id_at_index_zero registryABC (by decide) (by decide)).2 2 0 (by decide) (by decide)⟩

/-- C10: removing an id that matches no Location of a registry with at least
two Locations leaves the registry unchanged. -/
theorem C10_remove_unknown_id (id : String) (l : List Location) (h2 : 2 ≤ l.length)
    (hno : ∀ loc ∈ l, loc.id ≠ id) : removeLocation id l = l := by
  have hf : l.findIdx? (fun loc => loc.id == id) = none := by
    rw [List.findIdx?_eq_none_iff]
    intro x hx
    simpa using hno x hx
  unfold removeLocation
  have hle : ¬ l.length ≤ 1 := by omega
  simp [hle, hf]

theorem gen_length (sysOff baseDate : Int) (home tgt : Timezone) (sel : Option Nat) :
    (generateAlignedTimeSlots sysOff baseDate home tgt sel).length = 26 := by
  unfold generateAlignedTimeSlots
  simp

set_option maxRecDepth 4000 in
theorem gen_getElem?_utc (sysOff baseDate : Int) (home tgt : Timezone) (sel : Option Nat)
    (i : Nat) (hi : i < 26) :
    ((generateAlignedTimeSlots sysOff baseDate home tgt sel)[i]?).map TimeSlot.utc =
      some (fromZonedTime sysOff home (setMidnight sysOff baseDate) + (i : Int) * hourMs) := by
  unfold generateAlignedTimeSlots
  rw [List.getElem?_map, List.getElem?_range hi]
  simp only [Option.map_some']
  congr 1
  unfold hourMs
  ring

/-- C2: every generated sequence starts at the same absolute instant — the
home zone's local midnight on the anchor's calendar date expressed in UTC —
and in particular slot 0's UTC instant is the same for every target zone. -/
theorem C2_first_slot_is_home_midnight (sysOff baseDate : Int) (home t1 t2 : Timezone)
    (s1 s2 : Option Nat) :
    ((generateAlignedTimeSlots sysOff baseDate home t1 s1).map TimeSlot.utc).head? =
        some (specHomeMidnightUtc home (anchorCalendarDay sysOff baseDate)) ∧
    ((generateAlignedTimeSlots sysOff baseDate home t1 s1).map TimeSlot.utc).head? =
      ((generateAlignedTimeSlots sysOff baseDate home t2 s2).map TimeSlot.utc).head? := by
  have key : ∀ (t : Timezone) (s : Option Nat),
      ((generateAlignedTimeSlots sysOff baseDate home t s).map TimeSlot.utc).head? =
        some (specHomeMidnightUtc home (anchorCalendarDay sysOff baseDate)) := by
    intro t s
    unfold generateAlignedTimeSlots
    rw [List.map_map, head?_map_range 26 (by norm_num)]
    simp only [Function.comp]
    unfold fromZonedTime setMidnight specHomeMidnightUtc anchorCalendarDay
    rw [wallSys_ofWallSys]
    norm_num
  exact ⟨key t1 s1, (key t1 s1).trans (key t2 s2).symm⟩

/-- C10 witness: removing an unknown id from the 3-registry changes
nothing. -/
theorem C10_witness :
    (2 ≤ registryABC.length ∧ ∀ loc ∈ registryABC, loc.id ≠ "Mars/Olympus:Olympus") ∧
      removeLocation "Mars/Olympus:Olympus" registryABC = registryABC :=
  ⟨⟨by decide, by decide⟩,
    C10_remove_unknown_id "Mars/Olympus:Olympus" registryABC (by decide) (by decide)⟩

/-- C1: with America/New_York home and Asia/Kolkata (UTC+5:30) target, the
shipped aligner still returns 26 hourly slots, not 52 half-hourly ones: the
`timeUtils.ts` version hardcodes 26, and the `calculations.ts` version's
half-hour test is defeated because `getCurrentTimezoneOffset` is identically
zero.  (The whole-hour half of the claim — 26 slots — does hold.) -/
theorem C1_kolkata_gets_26_hourly_slots :
    kolkata.offsetAt 0 = 330 ∧ (330 : Int).tmod 60 = 30 ∧
    (generateAlignedTimeSlots (-300) anchorNY nyWinter kolkata none).length = 26 ∧
    ((generateAlignedTimeSlots (-300) anchorNY nyWinter kolkata none).map TimeSlot.utc) =
      [1705294800000, 1705298400000, 1705302000000, 1705305600000, 1705309200000,
       1705312800000, 1705316400000, 1705320000000, 1705323600000, 1705327200000,
       1705330800000, 1705334400000, 1705338000000, 1705341600000, 1705345200000,
       1705348800000, 1705352400000, 1705356000000, 1705359600000, 1705363200000,
       1705366800000, 1705370400000, 1705374000000, 1705377600000, 1705381200000,
       1705384800000] ∧
    getCurrentTimezoneOffset (-300) jan15utc kolkata = 0 ∧
    (generateAlignedTimeSlotsCalc (-300) jan15utc anchorNY nyWinter kolkata none).length =
      26 := by
  decide

/-- C3: Scenario A (anchor 2024-01-15, home America/New_York, target
Asia/Tokyo, runtime zone = the home zone).  Slot 0 carries utc
2024-01-15T05:00:00Z and hour/minute 14:00 as claimed, but its `time` label is
"4:00 AM", not "2:00 PM": `formatTime` is fed the already zone-shifted
`localDate`, so the Tokyo offset is applied twice (and the runtime offset
once).  A single conversion of the same instant does yield "2:00 PM". -/
theorem C3_scenario_a_eval :
    (generateAlignedTimeSlots (-300) anchorNY nyWinter tokyo none).head? =
      some { hour := 14, minute := 0, time := { h12 := 4, mm := 0, pm := false },
             date := 1705345200000, utc := 1705294800000, isCurrent := false,
             isSelected := false, isWeekend := false, isMidnight := true } ∧
    formatTime 1705294800000 tokyo = { h12 := 2, mm := 0, pm := true } ∧
    ({ h12 := 4, mm := 0, pm := false } : TimeLabel) ≠ { h12 := 2, mm := 0, pm := true } := by
  decide

/-- C4: same scenario as C3.  Asia/Tokyo's local calendar date changes between
slots 9 and 10 (05:00Z + 9h ⇒ Tokyo midnight falls at index 10), but the
generated `isMidnight` flags are true at 0 and 20: the boundary test compares
`yyyy-MM-dd` of the double-shifted `localDate` values, displacing the flag by
the Tokyo-minus-runtime offset (13 hours here). -/
theorem C4_day_boundary_misplaced :
    ((generateAlignedTimeSlots (-300) anchorNY nyWinter tokyo none).map TimeSlot.isMidnight) =
      [true, false, false, false, false, false, false, false, false, false,
       false, false, false, false, false, false, false, false, false, false,
       true, false, false, false, false, false] ∧
    specBoundaryFlags tokyo
        ((generateAlignedTimeSlots (-300) anchorNY nyWinter tokyo none).map TimeSlot.utc) =
      [true, false, false, false, false, false, false, false, false, false,
       true, false, false, false, false, false, false, false, false, false,
       false, false, false, false, false, false] ∧
    ((generateAlignedTimeSlots (-300) anchorNY nyWinter tokyo none).map TimeSlot.isMidnight) ≠
      specBoundaryFlags tokyo
        ((generateAlignedTimeSlots (-300) anchorNY nyWinter tokyo none).map TimeSlot.utc) := by
  decide

/-- C7: date pick with runtime zone America/New_York (UTC-5) while the home
zone is Asia/Tokyo (promoted by a reorder).  Picking 2024-01-15 with selection
2024-01-15T03:00Z (Tokyo 12:00) sets the anchor to 1705294800000 — the
RUNTIME zone's midnight of the home calendar day, not Tokyo's local midnight
1705244400000 — and the new selected instant reads 02:00 Tokyo, not the
preserved 12:00: both `getHomeMidnightDate` (via JS `getTimezoneOffset`) and
`setHours` use the runtime zone's offset where the home zone's is needed. -/
theorem C7_pick_date_uses_runtime_zone :
    localCalendarDay tokyo anchorNY = day20240115 ∧
    handleDateChange (-300) tokyo (some (jan15utc + 3 * hourMs)) anchorNY =
      (some 1705338000000, 1705294800000) ∧
    specHomeMidnightUtc tokyo day20240115 = 1705244400000 ∧
    (1705294800000 : Int) ≠ 1705244400000 ∧
    specZoneHour tokyo (jan15utc + 3 * hourMs) = 12 ∧
    specZoneHour tokyo 1705338000000 = 2 ∧ (2 : Int) ≠ 12 := by
  decide

/-- C8: clicking any slot makes its UTC instant the selected instant, and a
click on overflow column 25 (home wall clock 25:00, i.e. 01:00 of the next
home day) advances the anchor's calendar day by one and leaves the clicked
instant sitting at column 1 of the window regenerated from the new anchor.
Stated for a home zone whose offset is constant (`oh`) around the window,
i.e. no home DST transition inside it. -/
theorem C8_click_overflow_rebase (sysOff oh baseDate : Int) (home tgt : Timezone)
    (sel : Option Nat) (i : Nat) (s : TimeSlot)
    (hc1 : ∀ u, home.offsetAt u = oh) (hc2 : ∀ w, home.offsetAtWall w = oh)
    (hs : (generateAlignedTimeSlots sysOff baseDate home tgt sel)[i]? = some s) :
    (handleTimeSlotClick sysOff home s.utc).1 = s.utc ∧
    (i = 25 →
      anchorCalendarDay sysOff (handleTimeSlotClick sysOff home s.utc).2 =
        anchorCalendarDay sysOff baseDate + 1 ∧
      ∀ j : Nat, j < 26 →
        (((generateAlignedTimeSlots sysOff (handleTimeSlotClick sysOff home s.utc).2
            home tgt sel).map TimeSlot.utc)[j]? = some s.utc ↔ j = 1)) := by
  have hi : i < 26 := by
    by_contra hge
    rw [List.getElem?_eq_none (by rw [gen_length]; omega)] at hs
    exact Option.noConfusion hs
  have hbase : fromZonedTime sysOff home (setMidnight sysOff baseDate) =
      anchorCalendarDay sysOff baseDate * dayMs - oh * minuteMs := by
    unfold fromZonedTime setMidnight anchorCalendarDay
    rw [wallSys_ofWallSys, hc2]
  have hutc : s.utc =
      anchorCalendarDay sysOff baseDate * dayMs - oh * minuteMs + (i : Int) * hourMs := by
    have h := gen_getElem?_utc sysOff baseDate home tgt sel i hi
    rw [hs, hbase] at h
    simpa using h
  refine ⟨rfl, fun h25 => ?_⟩
  subst h25
  have hfy : formatYmd home s.utc = anchorCalendarDay sysOff baseDate + 1 := by
    unfold formatYmd zoneWall dayNumber
    rw [hc1, hutc]
    unfold dayMs minuteMs hourMs
    omega
  have hanchor : (handleTimeSlotClick sysOff home s.utc).2 =
      ofWallSys sysOff ((anchorCalendarDay sysOff baseDate + 1) * dayMs) := by
    unfold handleTimeSlotClick
    rw [hfy]
  constructor
  · rw [hanchor]
    unfold anchorCalendarDay dayNumber
    rw [wallSys_ofWallSys]
    unfold dayMs
    omega
  · intro j hj
    rw [List.getElem?_map, gen_getElem?_utc sysOff _ home tgt sel j hj]
    have hbase2 : fromZonedTime sysOff home
        (setMidnight sysOff (handleTimeSlotClick sysOff home s.utc).2) =
        (anchorCalendarDay sysOff baseDate + 1) * dayMs - oh * minuteMs := by
      unfold fromZonedTime setMidnight dayNumber
      rw [hanchor, wallSys_ofWallSys]
      have hd : ((anchorCalendarDay sysOff baseDate + 1) * dayMs) / dayMs =
          anchorCalendarDay sysOff baseDate + 1 := by
        unfold dayMs
        omega
      rw [wallSys_ofWallSys, hd, hc2]
    rw [hbase2, hutc]
    simp only [Option.some.injEq]
    unfold dayMs minuteMs hourMs
    constructor
    · intro he
      omega
    · intro he
      omega

/-- The slot at overflow column 25 of the Scenario-A home window (home wall
clock 01:00 of 2024-01-16, i.e. 2024-01-16T06:00:00Z). -/
def slotC8 : TimeSlot :=
  { hour := 15, minute := 0, time := { h12 := 5, mm := 0, pm := false },
    date := 1705435200000, utc := 1705384800000, isCurrent := false,
    isSelected := false, isWeekend := false, isMidnight := false }

/-- C8 witness: Scenario B at concrete values — home America/New_York in
January, clicking column 25 selects that slot's instant, advances the anchor
day by one, and the instant sits at column 1 of the regenerated window. -/
theorem C8_witness :
    ((generateAlignedTimeSlots (-300) anchorNY nyWinter tokyo none)[25]? = some slotC8) ∧
      (handleTimeSlotClick (-300) nyWinter slotC8.utc).1 = slotC8.utc ∧
      anchorCalendarDay (-300) (handleTimeSlotClick (-300) nyWinter slotC8.utc).2 =
        anchorCalendarDay (-300) anchorNY + 1 ∧
      (((generateAlignedTimeSlots (-300) (handleTimeSlotClick (-300) nyWinter slotC8.utc).2
          nyWinter tokyo none).map TimeSlot.utc)[1]? = some slotC8.utc) := by
  have h := C8_click_overflow_rebase (-300) (-300) anchorNY nyWinter tokyo none 25 slotC8
    (fun _ => rfl) (fun _ => rfl) (by decide)
  exact ⟨by decide, h.1, (h.2 rfl).1, ((h.2 rfl).2 1 (by norm_num)).mpr rfl⟩

/-- C9: the numeric fallback label for a UTC offset of −330 minutes
(UTC−5:30) is "GMT-6:30", not "GMT-5:30": `Math.floor` rounds −5.5 hours down
to −6 while the (truncating) `%` still reports 30 minutes, so 6h30 ≠ 330 min.
Positive offsets format as the claim states. -/
theorem C9_gmt_fallback_negative_halfhour :
    tzOffsetViaLocale 0 (constTz (-330)) 0 = -330 ∧
    abbrNumericFallback 0 (constTz (-330)) 0 = "GMT-6:30" ∧
    ("GMT-6:30" : String) ≠ "GMT-5:30" ∧
    formatGMTOffset 330 = "GMT+5:30" ∧
    (6 * 60 + 30 : Int) ≠ 330 := by
  decide

end WorldTime
